import Mathlib

/-!
Verification development for the LuxTrack repository.

The repository holds a React admin UI (frontend/App.js) and a Go backend
(backend/...) built on Fiber + Postgres; the test notes additionally describe
a parallel Python backend (server.py) that owns the multi-row
transaction-creation endpoint.  The Go backend source is embedded below
definition by definition; the pieces that live only in the absent server.py
(transaction creation, the seeded admin account used by the recorded tests)
and the external libraries (bcrypt, the JWT library) are modelled from the
spec, each such definition carrying a doc comment that says so.

Conventions of the embedding:
* Database rows are Lean structures mirroring the Go model structs; the
  store is a list of rows.
* A repository call that can fail returns `Except String`.
* The service layer wraps repository calls with `withTx`, mirroring the
  Go `BeginTx` / `defer tx.Rollback()` / `tx.Commit()` discipline:
  a failing operation leaves the store exactly as it was.
* HTTP responses are a status code plus a flat list of (key, value)
  fields standing for the JSON body; nested fields use dotted keys.
* Machine strings are Lean `String`; timestamps are `Nat` (unix seconds);
  money amounts are `ℚ`.
-/

namespace LuxTrack

/-- An HTTP response: status code and the JSON body flattened to a list of
(key, value) pairs; a nested object field uses a dotted key. -/
structure HttpResponse where
  status : Nat
  body : List (String × String)
deriving DecidableEq, Repr

/-- backend/domain/model/user.go: the `User` struct.  Field names follow the
Go struct; `LastLogin` is the nullable `*time.Time`. -/
structure User where
  ID : String
  Username : String
  Email : String
  Role : String
  ProfilePhoto : String
  LastLogin : Option Nat
  PasswordHash : String
  CreatedBy : String
  CreatedAt : Nat
  UpdatedBy : String
  UpdatedAt : Nat
deriving DecidableEq, Repr

/-- encoding/json marshalling of `model.User` as dictated by its struct tags:
`PasswordHash` carries the tag `json:"-"` and is never emitted; `Email`,
`ProfilePhoto`, `LastLogin`, `CreatedBy` and `UpdatedBy` carry `omitempty`. -/
def User.marshalJSON (u : User) : List (String × String) :=
  [("id", u.ID), ("username", u.Username)]
  ++ (if u.Email = "" then [] else [("email", u.Email)])
  ++ [("role", u.Role)]
  ++ (if u.ProfilePhoto = "" then [] else [("profile_photo", u.ProfilePhoto)])
  ++ (match u.LastLogin with
      | none => []
      | some t => [("last_login", toString t)])
  ++ (if u.CreatedBy = "" then [] else [("created_by", u.CreatedBy)])
  ++ [("created_at", toString u.CreatedAt)]
  ++ (if u.UpdatedBy = "" then [] else [("updated_by", u.UpdatedBy)])
  ++ [("updated_at", toString u.UpdatedAt)]

/-- Modelled from the spec: bcrypt (golang.org/x/crypto/bcrypt) is an external
library absent from the sources; the model keeps its contract — hashing is a
deterministic injection here and verification succeeds exactly when the hash
was produced from the same plaintext. -/
def bcryptHashModel (plain : String) : String :=
  "$2a$12$" ++ plain

/-- Modelled from the spec: bcrypt verification, see `bcryptHashModel`. -/
def bcryptVerifyModel (plain hash : String) : Bool :=
  hash == bcryptHashModel plain

/-- backend/internal/repository/user.go `FindByUsername`: the row whose
username column matches; `sql.ErrNoRows` surfaces when none does. -/
def userRepository.FindByUsername (rows : List User) (username : String) :
    Except String User :=
  match rows.find? (fun u => u.Username == username) with
  | some u => .ok u
  | none => .error "sql: no rows in result set"

/-- backend/internal/repository/user.go `FindByID`. -/
def userRepository.FindByID (rows : List User) (id : String) : Except String User :=
  match rows.find? (fun u => u.ID == id) with
  | some u => .ok u
  | none => .error "sql: no rows in result set"

/-- backend/internal/repository/user.go `Insert`: one INSERT of every user
column with created_at and updated_at set to NOW(); the UUID primary key
makes a duplicate id fail the statement. -/
def userRepository.Insert (now : Nat) (rows : List User) (u : User) :
    Except String (List User) :=
  if rows.any (fun r => r.ID == u.ID) then
    .error "duplicate key value violates unique constraint users_pkey"
  else
    .ok (rows ++ [{ u with CreatedAt := now, UpdatedAt := now }])

/-- backend/internal/repository/user.go `Update`: sets username, role, email,
profile_photo, updated_by and updated_at on the row with the given id; the
other columns — password_hash included — keep their stored values. -/
def userRepository.Update (now : Nat) (rows : List User) (u : User) :
    Except String (List User) :=
  .ok (rows.map (fun r =>
    if r.ID == u.ID then
      { r with Username := u.Username, Role := u.Role, Email := u.Email,
               ProfilePhoto := u.ProfilePhoto, UpdatedBy := u.UpdatedBy,
               UpdatedAt := now }
    else r))

/-- backend/internal/repository/user.go `Delete`: DELETE FROM users WHERE id. -/
def userRepository.Delete (rows : List User) (id : String) :
    Except String (List User) :=
  .ok (rows.filter (fun r => r.ID != id))

/-- ORDER BY created_at DESC as a relation on user rows. -/
def createdDesc (a b : User) : Prop := b.CreatedAt ≤ a.CreatedAt

instance : DecidableRel createdDesc := fun a b => Nat.decLe b.CreatedAt a.CreatedAt

instance : IsTotal User createdDesc := ⟨fun a b => Nat.le_total b.CreatedAt a.CreatedAt⟩

instance : IsTrans User createdDesc := ⟨fun _ _ _ h1 h2 => Nat.le_trans h2 h1⟩

/-- backend/internal/repository/user.go `List`: limit ≤ 0 is replaced by 50;
the SELECT omits the password_hash column, so the scanned struct keeps the
zero value there; rows come back ORDER BY created_at DESC with OFFSET and
LIMIT.  A negative offset would make Postgres reject the query; the claims
only exercise nonnegative offsets, embedded via `Int.toNat`. -/
def userRepository.List (rows : List User) (limit offset : Int) : List User :=
  let l := if limit ≤ 0 then (50 : Int) else limit
  ((((List.insertionSort createdDesc rows).drop offset.toNat).take l.toNat).map
    (fun u => { u with PasswordHash := "" }))

/-- The service-layer store-transaction discipline from
backend/internal/service: `BeginTx`, the repository call against the
transaction, `defer tx.Rollback()` and `tx.Commit()`.  A failing operation
hands its error back and the store is exactly the one from before
`BeginTx`; a succeeding one commits the transaction state. -/
def withTx {σ : Type} (store : σ) (op : σ → Except String σ) :
    Except String Unit × σ :=
  match op store with
  | .ok s => (.ok (), s)
  | .error e => (.error e, store)

/-- backend/internal/service/user.go `Create`: assign a fresh UUID when the
supplied id is empty, bcrypt-hash the plain password (a hashing failure
returns before any store access), then insert inside one transaction.
`hash` stands for `password.Hash` (the bcrypt call), `freshId` for
`uuid.NewString()`. -/
def userService.Create (hash : String → Option String) (freshId : String)
    (now : Nat) (store : List User) (u : User) (plainPassword : String) :
    Except String Unit × List User :=
  let u1 := if u.ID = "" then { u with ID := freshId } else u
  match hash plainPassword with
  | none => (.error "bcrypt: hashing failed", store)
  | some h =>
      withTx store (fun rows => userRepository.Insert now rows { u1 with PasswordHash := h })

/-- backend/internal/service/user.go `Update`. -/
def userService.Update (now : Nat) (store : List User) (u : User) :
    Except String Unit × List User :=
  withTx store (fun rows => userRepository.Update now rows u)

/-- backend/internal/service/user.go `Delete`. -/
def userService.Delete (store : List User) (id : String) :
    Except String Unit × List User :=
  withTx store (fun rows => userRepository.Delete rows id)

/-- backend/internal/service/user.go `Authenticate`: the repository lookup
error is returned as-is; a failed bcrypt verification becomes the
"invalid credentials" error. -/
def userService.Authenticate (store : List User) (username plain : String) :
    Except String User :=
  match userRepository.FindByUsername store username with
  | .error e => .error e
  | .ok u =>
      if bcryptVerifyModel plain u.PasswordHash then .ok u
      else .error "invalid credentials"

/-- backend/internal/repository/product.go: the row shape written and read by
the product repository SQL (columns product_id, name, brand_id, condition_id,
status_id, seller_id, code). -/
structure ProductRow where
  ID : String
  Name : String
  BrandID : Int
  ConditionID : Int
  StatusID : Int
  SellerID : String
  Code : String
deriving DecidableEq, Repr

/-- backend/internal/repository/product.go `Insert`: the primary key makes a
duplicate product_id fail the statement. -/
def productRepository.Insert (rows : List ProductRow) (p : ProductRow) :
    Except String (List ProductRow) :=
  if rows.any (fun r => r.ID == p.ID) then
    .error "duplicate key value violates unique constraint products_pkey"
  else
    .ok (rows ++ [p])

/-- backend/internal/repository/product.go `Update`: sets all non-key columns
on the row with the given product_id. -/
def productRepository.Update (rows : List ProductRow) (p : ProductRow) :
    Except String (List ProductRow) :=
  .ok (rows.map (fun r => if r.ID == p.ID then p else r))

/-- backend/internal/repository/product.go `Delete`. -/
def productRepository.Delete (rows : List ProductRow) (id : String) :
    Except String (List ProductRow) :=
  .ok (rows.filter (fun r => r.ID != id))

/-- backend/internal/service/product.go `Create`. -/
def productService.Create (store : List ProductRow) (p : ProductRow) :
    Except String Unit × List ProductRow :=
  withTx store (fun rows => productRepository.Insert rows p)

/-- backend/internal/service/product.go `Update`. -/
def productService.Update (store : List ProductRow) (p : ProductRow) :
    Except String Unit × List ProductRow :=
  withTx store (fun rows => productRepository.Update rows p)

/-- backend/internal/service/product.go `Delete`. -/
def productService.Delete (store : List ProductRow) (id : String) :
    Except String Unit × List ProductRow :=
  withTx store (fun rows => productRepository.Delete rows id)

/-- The full stop character, by code point. -/
def dotChar : Char := Char.ofNat 46

/-- The minus sign character, by code point. -/
def minusChar : Char := Char.ofNat 45

/-- The plus sign character, by code point. -/
def plusChar : Char := Char.ofNat 43

/-- Modelled from the spec: the JWT library (github.com/golang-jwt/jwt) is
external.  A token carries the claims (email, exp) and an HMAC tag over them
keyed by the signing secret; the tag is modelled as an explicit function of
secret and claims. -/
def signModel (secret email : String) (exp : Int) : String :=
  "hmac-" ++ secret ++ "-" ++ email ++ "-" ++ toString exp

/-- backend/internal/util/jwtutil/jwt.go `GenerateJWT`: claims are the email
and an expiry 24 hours (86400 seconds) from now, signed with the configured
secret.  The wire form is modelled as "email.exp.tag". -/
def GenerateJWT (secret email : String) (now : Int) : String :=
  email ++ "." ++ toString (now + 86400) ++ "." ++ signModel secret email (now + 86400)

/-- Split a character list at every full stop. -/
def splitDots : List Char → List (List Char)
  | [] => [[]]
  | c :: rest =>
      match splitDots rest with
      | [] => [[]]
      | h :: t => if c = dotChar then [] :: h :: t else (c :: h) :: t

/-- Accumulate decimal digits; any non-digit character fails the parse. -/
def digitsToNat (acc : Nat) : List Char → Option Nat
  | [] => some acc
  | c :: rest =>
      if c.isDigit then digitsToNat (acc * 10 + (c.toNat - 48)) rest else none

/-- An integer from characters: an optional sign then at least one digit. -/
def parseIntChars : List Char → Option Int
  | [] => none
  | c :: rest =>
      if c = minusChar then
        match rest with
        | [] => none
        | _ => (digitsToNat 0 rest).map (fun n => -(n : Int))
      else if c = plusChar then
        match rest with
        | [] => none
        | _ => (digitsToNat 0 rest).map (fun n => (n : Int))
      else (digitsToNat 0 (c :: rest)).map (fun n => (n : Int))

/-- strconv.Atoi from the Go standard library, its error modelled as none. -/
def goAtoi (s : String) : Option Int := parseIntChars s.data

/-- The Go pattern `limit, _ := strconv.Atoi(q)`: the error is discarded and
the integer keeps its zero value. -/
def atoiOrZero (s : String) : Int := (goAtoi s).getD 0

/-- Recover (email, exp, tag) from the modelled token wire form. -/
def decodeToken (s : String) : Option (String × Int × String) :=
  match splitDots s.data with
  | [e, x, g] => (parseIntChars x).map (fun n => (String.mk e, n, String.mk g))
  | _ => none

/-- backend/internal/util/jwtutil/jwt.go `ValidateJWT` over the modelled wire
format: parse failures, a tag that does not match the secret-keyed signature
of the claims, and a non-future expiry all collapse into the one
"invalid or expired token" error, as in the source. -/
def ValidateJWT (secret : String) (now : Int) (tokenStr : String) :
    Except String (String × Int) :=
  match decodeToken tokenStr with
  | none => .error "invalid or expired token"
  | some (e, n, g) =>
      if g = signModel secret e n ∧ now < n then .ok (e, n)
      else .error "invalid or expired token"

/-- backend/internal/util/jwtutil/extract.go `ExtractBearerToken`:
strings.HasPrefix and strings.TrimPrefix for "Bearer ", at the character
level. -/
def ExtractBearerToken (authHeader : String) : String :=
  if authHeader.data.take 7 = "Bearer ".data then String.mk (authHeader.data.drop 7)
  else ""

/-- backend/internal/http/middleware/auth.go `RequireAuth`: `.error` is the
middleware answering `JSONError(401, ...)` without calling `c.Next()`;
`.ok` carries the email placed in the request locals before dispatch. -/
def RequireAuth (secret : String) (now : Int) (authHeader : String) :
    Except HttpResponse String :=
  let tokenStr := ExtractBearerToken authHeader
  if tokenStr = "" then .error ⟨401, [("error", "Missing or malformed token")]⟩
  else
    match ValidateJWT secret now tokenStr with
    | .error e => .error ⟨401, [("error", e)]⟩
    | .ok (email, _) => .ok email

/-- strings.TrimSpace from the Go standard library, at the character level. -/
def trimSpace (s : String) : String :=
  String.mk (((s.data.dropWhile Char.isWhitespace).reverse.dropWhile
    Char.isWhitespace).reverse)

/-- backend/internal/http/handler/auth_handler.go `LoginWithUserService`:
trim the username, authenticate, and either answer 401 "invalid credentials"
or issue a token and the user object (id, username, role, email). -/
def LoginWithUserService (secret : String) (now : Int) (store : List User)
    (username password : String) : HttpResponse :=
  let uname := trimSpace username
  match userService.Authenticate store uname password with
  | .error _ => ⟨401, [("error", "invalid credentials")]⟩
  | .ok u =>
      ⟨200, [("token", GenerateJWT secret u.Username now),
             ("user.id", u.ID), ("user.username", u.Username),
             ("user.role", u.Role), ("user.email", u.Email)]⟩

/-- backend/internal/http/handler/user.go `GetUserByID`: blank the password
hash on the fetched row before marshalling it. -/
def GetUserByID (store : List User) (id : String) : HttpResponse :=
  if id = "" then ⟨400, [("error", "missing id")]⟩
  else
    match userRepository.FindByID store id with
    | .error _ => ⟨404, [("error", "user not found")]⟩
    | .ok u => ⟨200, User.marshalJSON { u with PasswordHash := "" }⟩

/-- backend/internal/http/handler/user.go `ListUsers`: limit and offset come
from query parameters defaulting to "50" and "0"; Atoi failures are ignored,
leaving the zero value.  The body is one marshalled object per row. -/
def ListUsers (store : List User) (limitQ offsetQ : Option String) :
    List (List (String × String)) :=
  let limit := atoiOrZero (limitQ.getD "50")
  let offset := atoiOrZero (offsetQ.getD "0")
  (userRepository.List store limit offset).map User.marshalJSON

/-- Modelled from the spec: the recorded tests run against the Python backend
(server.py, absent from the sources), whose seeded administrator signs in as
admin@luxtrack.com with password admin123, stored bcrypt-hashed.  The Go
migration 002_insert_masters.up.sql instead seeds username "admin" with the
literal placeholder hash, against which no password verifies. -/
def adminSeedUser : User :=
  { ID := "11111111-1111-1111-1111-111111111111"
    Username := "admin@luxtrack.com"
    Email := "admin@luxtrack.com"
    Role := "admin"
    ProfilePhoto := ""
    LastLogin := none
    PasswordHash := bcryptHashModel "admin123"
    CreatedBy := ""
    CreatedAt := 0
    UpdatedBy := ""
    UpdatedAt := 0 }

/-- A line item of a transaction-creation request (product_id, quantity,
unit_price), the shape posted by frontend/App.js `handleSubmit`. -/
structure LineItem where
  product_id : String
  quantity : Nat
  unit_price : ℚ
deriving DecidableEq, Repr

/-- A transaction-creation request.  `client_total` stands for any total the
client might put on the wire; the server recomputes and never reads it. -/
structure TransactionReq where
  transaction_type : String
  customer_id : String
  payment_method : String
  shipping_method : Option String
  notes : Option String
  client_total : Option ℚ
  items : List LineItem
deriving DecidableEq, Repr

/-- A persisted transaction header row. -/
structure TransRow where
  id : String
  transaction_type : String
  customer_id : String
  total_amount : ℚ
deriving DecidableEq, Repr

/-- A persisted transaction line-item row. -/
structure ItemRow where
  transaction_id : String
  product_id : String
  quantity : Nat
  unit_price : ℚ
  total_price : ℚ
deriving DecidableEq, Repr

/-- A product as the transaction workflow sees it: id and status. -/
structure PyProduct where
  id : String
  status : String
deriving DecidableEq, Repr

/-- The slice of the store touched by transaction creation. -/
structure PyStore where
  products : List PyProduct
  transactions : List TransRow
  txItems : List ItemRow
deriving DecidableEq, Repr

/-- Modelled from the spec (section 4.3): one step of the line-item loop —
insert the line-item row with total_price = quantity × unit_price and, when
the transaction is a sale, flip the referenced product status to sold. -/
def applyItem (txId ttype : String) (s : PyStore) (it : LineItem) : PyStore :=
  { s with
    txItems := s.txItems ++ [⟨txId, it.product_id, it.quantity, it.unit_price,
                              (it.quantity : ℚ) * it.unit_price⟩]
    products :=
      if ttype = "sale" then
        s.products.map (fun p =>
          if p.id = it.product_id then { p with status := "sold" } else p)
      else s.products }

/-- Modelled from the spec (section 4.3): the line-item loop inside the store
transaction; a line item that references a nonexistent product fails the
whole loop. -/
def insertItems (txId ttype : String) : List LineItem → PyStore → Except String PyStore
  | [], s => .ok s
  | it :: rest, s =>
      match s.products.find? (fun p => p.id = it.product_id) with
      | none => .error "product not found"
      | some _ => insertItems txId ttype rest (applyItem txId ttype s it)

/-- Modelled from the spec (sections 4.3 and 7): `POST /api/transactions` of
the absent server.py.  Reject an empty line-item list; otherwise, inside one
store transaction, recompute the total as the sum of quantity × unit_price,
insert the header, insert each line item and flip sold statuses; a failure
anywhere rolls the store back to its state before the request.  The pair is
(what the caller is told, the store after commit or rollback). -/
def createTransaction (store : PyStore) (freshId : String) (req : TransactionReq) :
    Except String Unit × PyStore :=
  if req.items.isEmpty then (.error "at least one line item is required", store)
  else
    let total := (req.items.map (fun i => (i.quantity : ℚ) * i.unit_price)).sum
    let s0 := { store with
                transactions := store.transactions ++
                  [⟨freshId, req.transaction_type, req.customer_id, total⟩] }
    match insertItems freshId req.transaction_type req.items s0 with
    | .ok s1 => (.ok (), s1)
    | .error e => (.error e, store)

/-- The fully-applied outcome a successful transaction creation must equal:
header appended with the recomputed total, then every line item applied in
order.  Stated from the words of the spec for the refinement comparison. -/
def appliedStore (store : PyStore) (freshId : String) (req : TransactionReq) : PyStore :=
  req.items.foldl (applyItem freshId req.transaction_type)
    { store with transactions := store.transactions ++
        [⟨freshId, req.transaction_type, req.customer_id,
          (req.items.map (fun i => (i.quantity : ℚ) * i.unit_price)).sum⟩] }

/-- frontend/App.js `TransactionForm.calculateTotal`: reduce over the selected
products accumulating quantity × unit_price from zero. -/
def TransactionForm.calculateTotal (selectedProducts : List LineItem) : ℚ :=
  selectedProducts.foldl
    (fun total item => total + (item.quantity : ℚ) * item.unit_price) 0

/-- frontend/App.js `TransactionForm.handleSubmit`: with no selected product
the form sets the error message and never posts; otherwise it posts the items
mapped to (product_id, quantity, unit_price). -/
def TransactionForm.handleSubmit (selectedProducts : List LineItem) :
    Option String × Option (List LineItem) :=
  if selectedProducts.length = 0 then
    (some "Please select at least one product", none)
  else
    (none, some (selectedProducts.map (fun item =>
      ⟨item.product_id, item.quantity, item.unit_price⟩)))

/-! ## Helper lemmas -/

/-- The modelled bcrypt hash is injective: string append cancels on the left. -/
theorem bcryptHashModel_inj {p q : String}
    (h : bcryptHashModel p = bcryptHashModel q) : p = q := by
  unfold bcryptHashModel at h
  have h2 : ("$2a$12$" ++ p).data = ("$2a$12$" ++ q).data := congrArg String.data h
  simp only [String.data_append] at h2
  have h3 : p.data = q.data := List.append_cancel_left h2
  cases p; cases q; simp_all

/-- The marshalled user never carries a password_hash key. -/
theorem marshalJSON_keys_no_password (u : User) :
    (((User.marshalJSON u).map Prod.fst).contains "password_hash") = false := by
  unfold User.marshalJSON
  cases u.LastLogin <;> split_ifs <;> rfl

/-- Marshalling ignores the PasswordHash field entirely. -/
theorem marshalJSON_ignores_hash (u : User) (h : String) :
    User.marshalJSON { u with PasswordHash := h } = User.marshalJSON u := by
  cases u; rfl

/-- A committed `withTx` is exactly the repository operation applied. -/
theorem withTx_ok {σ : Type} (store : σ) (op : σ → Except String σ) :
    (withTx store op).1 = .ok () → op store = .ok (withTx store op).2 := by
  unfold withTx
  cases h : op store <;> simp

/-- A failed `withTx` leaves the store exactly as it was. -/
theorem withTx_err {σ : Type} (store : σ) (op : σ → Except String σ) :
    ∀ e, (withTx store op).1 = .error e → (withTx store op).2 = store := by
  unfold withTx
  cases h : op store <;> simp

/-- A failing repository operation surfaces through `withTx` with the very
same error value, untranslated. -/
theorem withTx_err_surfaced {σ : Type} (store : σ) (op : σ → Except String σ) :
    ∀ e, op store = .error e → (withTx store op).1 = .error e := by
  intro e h
  unfold withTx
  rw [h]

/-- A succeeding user insert appends exactly the timestamped row. -/
theorem userRepositoryInsert_ok {now : Nat} {rows : List User} {u : User}
    {w : List User} (h : userRepository.Insert now rows u = .ok w) :
    w = rows ++ [{ u with CreatedAt := now, UpdatedAt := now }] := by
  unfold userRepository.Insert at h
  split at h
  · cases h
  · injection h with h1
    exact h1.symm

/-- Applying one line item never changes which product ids are stored. -/
theorem applyItem_products_id (txId ttype : String) (s : PyStore) (it : LineItem) :
    (applyItem txId ttype s it).products.map PyProduct.id = s.products.map PyProduct.id := by
  unfold applyItem
  split
  · rw [List.map_map]
    apply List.map_congr_left
    intro p _
    by_cases hp : p.id = it.product_id <;> simp [hp]
  · rfl

/-- Applying one line item never touches the transaction headers. -/
theorem applyItem_transactions (txId ttype : String) (s : PyStore) (it : LineItem) :
    (applyItem txId ttype s it).transactions = s.transactions := rfl

/-- The line-item loop never touches the transaction headers. -/
theorem foldl_applyItem_transactions (txId ttype : String) :
    ∀ (items : List LineItem) (s : PyStore),
      (items.foldl (applyItem txId ttype) s).transactions = s.transactions := by
  intro items
  induction items with
  | nil => intro s; rfl
  | cons it rest ih =>
      intro s
      rw [List.foldl_cons, ih, applyItem_transactions]

/-- A succeeding line-item loop is exactly the fold of `applyItem`. -/
theorem insertItems_ok_eq (txId ttype : String) :
    ∀ (items : List LineItem) (s s2 : PyStore),
      insertItems txId ttype items s = .ok s2 →
      s2 = items.foldl (applyItem txId ttype) s := by
  intro items
  induction items with
  | nil =>
      intro s s2 h
      injection h with h1
      exact h1.symm
  | cons it rest ih =>
      intro s s2 h
      unfold insertItems at h
      cases hf : s.products.find? (fun p => p.id = it.product_id) with
      | none => rw [hf] at h; cases h
      | some p => rw [hf] at h; exact ih _ _ h

/-- The line-item loop succeeds whenever every referenced product exists. -/
theorem insertItems_total (txId ttype : String) :
    ∀ (items : List LineItem) (s : PyStore),
      (∀ it ∈ items, it.product_id ∈ s.products.map PyProduct.id) →
      insertItems txId ttype items s = .ok (items.foldl (applyItem txId ttype) s) := by
  intro items
  induction items with
  | nil => intro s _; rfl
  | cons it rest ih =>
      intro s hmem
      unfold insertItems
      have h1 : it.product_id ∈ s.products.map PyProduct.id := hmem it (by simp)
      rw [List.mem_map] at h1
      obtain ⟨p, hp, hpid⟩ := h1
      cases hf : s.products.find? (fun q => q.id = it.product_id) with
      | none =>
          rw [List.find?_eq_none] at hf
          exact absurd hpid (by simpa using hf p hp)
      | some q =>
          have h2 : ∀ it2 ∈ rest,
              it2.product_id ∈ (applyItem txId ttype s it).products.map PyProduct.id := by
            intro it2 hit2
            rw [applyItem_products_id]
            exact hmem it2 (by simp [hit2])
          rw [List.foldl_cons]
          exact ih _ h2

/-- A failing transaction creation hands back the untouched store. -/
theorem createTransaction_err_unchanged (store : PyStore) (freshId : String)
    (req : TransactionReq) :
    ∀ e, (createTransaction store freshId req).1 = .error e →
      (createTransaction store freshId req).2 = store := by
  intro e h
  unfold createTransaction at h ⊢
  by_cases hemp : req.items.isEmpty = true
  · rw [if_pos hemp]
  · rw [if_neg hemp] at h ⊢
    simp only [] at h ⊢
    split at h
    · exact absurd h (by simp)
    · rfl

/-- A succeeding transaction creation commits exactly the applied store. -/
theorem createTransaction_ok_applied (store : PyStore) (freshId : String)
    (req : TransactionReq) (h : (createTransaction store freshId req).1 = .ok ()) :
    (createTransaction store freshId req).2 = appliedStore store freshId req := by
  unfold createTransaction at h ⊢
  by_cases hemp : req.items.isEmpty = true
  · rw [if_pos hemp] at h
    exact absurd h (by simp)
  · rw [if_neg hemp] at h ⊢
    simp only [] at h ⊢
    split at h
    · rename_i s1 heq
      exact insertItems_ok_eq _ _ _ _ _ heq
    · exact absurd h (by simp)

/-- Transaction creation succeeds and commits in full when the line-item list
is nonempty and every referenced product exists. -/
theorem createTransaction_success (store : PyStore) (freshId : String)
    (req : TransactionReq)
    (hmem : ∀ it ∈ req.items, it.product_id ∈ store.products.map PyProduct.id)
    (hne : req.items ≠ []) :
    createTransaction store freshId req = (.ok (), appliedStore store freshId req) := by
  have hemp : ¬ (req.items.isEmpty = true) := by
    simpa [List.isEmpty_iff] using hne
  unfold createTransaction
  rw [if_neg hemp]
  simp only []
  have ht := insertItems_total freshId req.transaction_type req.items
    { store with transactions := store.transactions ++
        [⟨freshId, req.transaction_type, req.customer_id,
          (req.items.map (fun i => (i.quantity : ℚ) * i.unit_price)).sum⟩] }
    (by intro it hit; exact hmem it hit)
  rw [ht]
  rfl

/-- Folding the reduce of the frontend total into the mapped sum. -/
theorem foldl_add_eq_sum (f : LineItem → ℚ) :
    ∀ (l : List LineItem) (a : ℚ),
      l.foldl (fun tot it => tot + f it) a = a + (l.map f).sum := by
  intro l
  induction l with
  | nil => intro a; simp
  | cons it rest ih => intro a; simp [ih, add_assoc]

/-! ## Claim theorems -/

/-- Claim C1: for every transaction-creation request, if any step of the
sequence (insert header, insert line items, flip product statuses) fails,
everything performed so far is rolled back and the store is left exactly as
it was; no partial success is ever reported — a success commits the header,
all line items and all status changes together (the applied store), and this
outcome is reached whenever the request is well formed. -/
theorem C1_transaction_creation_all_or_nothing :
    ∀ (store : PyStore) (freshId : String) (req : TransactionReq),
      (∀ e, (createTransaction store freshId req).1 = .error e →
        (createTransaction store freshId req).2 = store)
      ∧ ((createTransaction store freshId req).1 = .ok () →
        (createTransaction store freshId req).2 = appliedStore store freshId req)
      ∧ ((∀ it ∈ req.items, it.product_id ∈ store.products.map PyProduct.id) →
        req.items ≠ [] →
        createTransaction store freshId req =
          (.ok (), appliedStore store freshId req)) := by
  intro store freshId req
  exact ⟨createTransaction_err_unchanged store freshId req,
         createTransaction_ok_applied store freshId req,
         createTransaction_success store freshId req⟩

/-- Witness for C1: a sale whose line item references a missing product fails
and leaves the store untouched; a well-formed sale commits in full. -/
theorem C1_transaction_creation_all_or_nothing_witness :
    (createTransaction ⟨[⟨"p1", "available"⟩], [], []⟩ "t1"
        ⟨"sale", "c1", "cash", none, none, none, [⟨"missing", 1, 5⟩]⟩).2 =
      ⟨[⟨"p1", "available"⟩], [], []⟩
    ∧ createTransaction ⟨[⟨"p1", "available"⟩], [], []⟩ "t1"
        ⟨"sale", "c1", "cash", none, none, none, [⟨"p1", 2, 10⟩]⟩ =
      (.ok (), appliedStore ⟨[⟨"p1", "available"⟩], [], []⟩ "t1"
        ⟨"sale", "c1", "cash", none, none, none, [⟨"p1", 2, 10⟩]⟩) := by
  constructor
  · exact (C1_transaction_creation_all_or_nothing ⟨[⟨"p1", "available"⟩], [], []⟩ "t1"
      ⟨"sale", "c1", "cash", none, none, none, [⟨"missing", 1, 5⟩]⟩).1
      "product not found" (by rfl)
  · exact (C1_transaction_creation_all_or_nothing ⟨[⟨"p1", "available"⟩], [], []⟩ "t1"
      ⟨"sale", "c1", "cash", none, none, none, [⟨"p1", 2, 10⟩]⟩).2.2
      (by decide) (by decide)

/-- Claim C2: a transaction-creation request with an empty line-item list
fails with the validation error and persists nothing — the store comes back
unchanged; the frontend form likewise refuses to post with no product. -/
theorem C2_empty_line_items_rejected :
    ∀ (store : PyStore) (freshId : String) (req : TransactionReq),
      req.items = [] →
      createTransaction store freshId req =
        (.error "at least one line item is required", store)
      ∧ TransactionForm.handleSubmit [] =
        (some "Please select at least one product", none) := by
  intro store freshId req h
  constructor
  · unfold createTransaction
    rw [h]
    rfl
  · rfl

/-- Witness for C2: the empty request against a concrete store. -/
theorem C2_empty_line_items_rejected_witness :
    createTransaction ⟨[⟨"p1", "available"⟩], [], []⟩ "t1"
        ⟨"sale", "c1", "cash", none, none, none, []⟩ =
      (.error "at least one line item is required",
        ⟨[⟨"p1", "available"⟩], [], []⟩) :=
  (C2_empty_line_items_rejected ⟨[⟨"p1", "available"⟩], [], []⟩ "t1"
    ⟨"sale", "c1", "cash", none, none, none, []⟩ rfl).1

/-- Claim C3: the persisted total of a created transaction equals the sum
over all line items of quantity × unit_price, recomputed on the server; a
client-sent total is ignored (the outcome does not depend on it), and the
frontend reduce computes the same sum. -/
theorem C3_total_recomputed_server_side :
    ∀ (store : PyStore) (freshId : String) (req : TransactionReq),
      ((createTransaction store freshId req).1 = .ok () →
        ((createTransaction store freshId req).2).transactions =
          store.transactions ++
            [⟨freshId, req.transaction_type, req.customer_id,
              (req.items.map (fun i => (i.quantity : ℚ) * i.unit_price)).sum⟩])
      ∧ (∀ t, createTransaction store freshId { req with client_total := t } =
          createTransaction store freshId req)
      ∧ TransactionForm.calculateTotal req.items =
          (req.items.map (fun i => (i.quantity : ℚ) * i.unit_price)).sum := by
  intro store freshId req
  refine ⟨?_, ?_, ?_⟩
  · intro h
    rw [createTransaction_ok_applied store freshId req h]
    unfold appliedStore
    rw [foldl_applyItem_transactions]
  · intro t
    cases req
    rfl
  · exact foldl_add_eq_sum _ req.items 0 |>.trans (by rw [zero_add])

/-- Witness for C3: the committed header row of a concrete sale carries the
recomputed sum of its two line items. -/
theorem C3_total_recomputed_server_side_witness :
    ((createTransaction ⟨[⟨"p1", "available"⟩], [], []⟩ "t1"
        ⟨"sale", "c1", "cash", none, none, none,
          [⟨"p1", 2, 10⟩, ⟨"p1", 1, 3⟩]⟩).2).transactions =
      [] ++ [⟨"t1", "sale", "c1",
        (([⟨"p1", 2, 10⟩, ⟨"p1", 1, 3⟩] : List LineItem).map
          (fun i => (i.quantity : ℚ) * i.unit_price)).sum⟩] :=
  (C3_total_recomputed_server_side ⟨[⟨"p1", "available"⟩], [], []⟩ "t1"
    ⟨"sale", "c1", "cash", none, none, none,
      [⟨"p1", 2, 10⟩, ⟨"p1", 1, 3⟩]⟩).1 (by rfl)

/-- Claim C4: against the seeded admin account (modelled from the spec, see
`adminSeedUser`), logging in with admin@luxtrack.com / admin123 answers 200
with a token and the user object, while any other password answers the
unauthorized error with no token in the body. -/
theorem C4_admin_login_success_and_failure :
    ∀ (secret : String) (now : Int),
      ((LoginWithUserService secret now [adminSeedUser] "admin@luxtrack.com"
          "admin123").status = 200
        ∧ (LoginWithUserService secret now [adminSeedUser] "admin@luxtrack.com"
            "admin123").body.map Prod.fst =
            ["token", "user.id", "user.username", "user.role", "user.email"])
      ∧ (∀ password, password ≠ "admin123" →
          LoginWithUserService secret now [adminSeedUser] "admin@luxtrack.com"
              password = ⟨401, [("error", "invalid credentials")]⟩
          ∧ "token" ∉ (LoginWithUserService secret now [adminSeedUser]
              "admin@luxtrack.com" password).body.map Prod.fst) := by
  intro secret now
  have hA : userService.Authenticate [adminSeedUser]
      (trimSpace "admin@luxtrack.com") "admin123" = .ok adminSeedUser := by rfl
  refine ⟨⟨?_, ?_⟩, ?_⟩
  · simp only [LuxTrack.LoginWithUserService, hA]
  · simp only [LuxTrack.LoginWithUserService, hA]
    rfl
  · intro password hp
    have hv : bcryptVerifyModel password adminSeedUser.PasswordHash = false := by
      simp only [bcryptVerifyModel, adminSeedUser, beq_eq_false_iff_ne, ne_eq]
      intro hEq
      exact hp (bcryptHashModel_inj hEq).symm
    have hf : userRepository.FindByUsername [adminSeedUser]
        (trimSpace "admin@luxtrack.com") = .ok adminSeedUser := by rfl
    have hA2 : userService.Authenticate [adminSeedUser]
        (trimSpace "admin@luxtrack.com") password = .error "invalid credentials" := by
      simp only [userService.Authenticate, hf, hv]
      rfl
    constructor
    · simp only [LuxTrack.LoginWithUserService, hA2]
    · simp only [LuxTrack.LoginWithUserService, hA2]
      simp

/-- Witness for C4: a concrete wrong password is turned away with no token. -/
theorem C4_admin_login_success_and_failure_witness :
    LoginWithUserService "secret" 0 [adminSeedUser] "admin@luxtrack.com"
        "wrongpass" = ⟨401, [("error", "invalid credentials")]⟩
    ∧ "token" ∉ (LoginWithUserService "secret" 0 [adminSeedUser]
        "admin@luxtrack.com" "wrongpass").body.map Prod.fst :=
  (C4_admin_login_success_and_failure "secret" 0).2 "wrongpass" (by decide)

/-- Claim C5: the stored password hash is never serialized to clients — the
user marshaller drops the PasswordHash field (two users differing only there
marshal identically and no password_hash key ever appears), and none of the
login, get-user-by-id or list-users response bodies carries such a key. -/
theorem C5_password_hash_never_serialized :
    (∀ (u : User) (h : String),
        User.marshalJSON { u with PasswordHash := h } = User.marshalJSON u)
    ∧ (∀ u : User,
        (((User.marshalJSON u).map Prod.fst).contains "password_hash") = false)
    ∧ (∀ (secret : String) (now : Int) (store : List User) (uname pass : String),
        (((LoginWithUserService secret now store uname pass).body).map
          Prod.fst).contains "password_hash" = false)
    ∧ (∀ (store : List User) (id : String),
        (((GetUserByID store id).body).map Prod.fst).contains "password_hash" = false)
    ∧ (∀ (store : List User) (limitQ offsetQ : Option String),
        (ListUsers store limitQ offsetQ).all
          (fun fields => !((fields.map Prod.fst).contains "password_hash")) = true) := by
  refine ⟨marshalJSON_ignores_hash, marshalJSON_keys_no_password, ?_, ?_, ?_⟩
  · intro secret now store uname pass
    simp only [LuxTrack.LoginWithUserService]
    cases h : userService.Authenticate store (trimSpace uname) pass <;>
      simp only [h] <;> rfl
  · intro store id
    simp only [LuxTrack.GetUserByID]
    split
    · rfl
    · cases h : userRepository.FindByID store id with
      | error e => simp only [h]; rfl
      | ok u => simp only [h]; exact marshalJSON_keys_no_password _
  · intro store lq oq
    simp only [ListUsers]
    rw [List.all_eq_true]
    intro fields hf
    rw [List.mem_map] at hf
    obtain ⟨u, _, rfl⟩ := hf
    rw [marshalJSON_keys_no_password u]
    rfl

/-- Claim C6: every failed login, whether the username is unknown (the
repository lookup error) or the password is wrong (the verification error),
produces the one identical unauthorized response — the observable output
does not distinguish the two cases. -/
theorem C6_login_failure_indistinguishable :
    (∀ (secret : String) (now : Int) (store : List User)
        (username password e : String),
        userService.Authenticate store (trimSpace username) password = .error e →
        LoginWithUserService secret now store username password =
          ⟨401, [("error", "invalid credentials")]⟩)
    ∧ (∀ (secret : String) (now : Int) (s1 s2 : List User)
        (u1 p1 u2 p2 e1 e2 : String),
        userService.Authenticate s1 (trimSpace u1) p1 = .error e1 →
        userService.Authenticate s2 (trimSpace u2) p2 = .error e2 →
        LoginWithUserService secret now s1 u1 p1 =
          LoginWithUserService secret now s2 u2 p2) := by
  constructor
  · intro secret now store username password e h
    simp only [LuxTrack.LoginWithUserService, h]
  · intro secret now s1 s2 u1 p1 u2 p2 e1 e2 h1 h2
    simp only [LuxTrack.LoginWithUserService, h1, h2]

/-- Witness for C6: an unknown username and a wrong password against the
seeded admin produce the same unauthorized response. -/
theorem C6_login_failure_indistinguishable_witness :
    LoginWithUserService "s" 0 [adminSeedUser] "nobody" "pw" =
      ⟨401, [("error", "invalid credentials")]⟩
    ∧ LoginWithUserService "s" 0 [adminSeedUser] "admin@luxtrack.com" "wrong" =
        LoginWithUserService "s" 0 [adminSeedUser] "nobody" "pw" := by
  constructor
  · exact C6_login_failure_indistinguishable.1 "s" 0 [adminSeedUser]
      "nobody" "pw" "sql: no rows in result set" (by rfl)
  · exact C6_login_failure_indistinguishable.2 "s" 0 [adminSeedUser]
      [adminSeedUser] "admin@luxtrack.com" "wrong" "nobody" "pw"
      "invalid credentials" "sql: no rows in result set" (by rfl) (by rfl)

/-- Claim C7: the auth middleware validates the bearer token before
dispatching — a header without the Bearer marker extracts to the empty token
and is answered 401 without invoking the handler, a token failing validation
(bad signature or non-future expiry, which both make `ValidateJWT` fail) is
answered 401 without invoking the handler, and the handler runs only after a
successful validation. -/
theorem C7_auth_middleware_rejects_before_dispatch :
    ∀ (secret : String) (now : Int) (authHeader : String),
      (authHeader.data.take 7 ≠ "Bearer ".data → ExtractBearerToken authHeader = "")
      ∧ (ExtractBearerToken authHeader = "" →
          RequireAuth secret now authHeader =
            .error ⟨401, [("error", "Missing or malformed token")]⟩)
      ∧ (∀ t m, ExtractBearerToken authHeader = t → t ≠ "" →
          ValidateJWT secret now t = .error m →
          RequireAuth secret now authHeader = .error ⟨401, [("error", m)]⟩)
      ∧ (∀ t e n g, decodeToken t = some (e, n, g) → g ≠ signModel secret e n →
          ValidateJWT secret now t = .error "invalid or expired token")
      ∧ (∀ t e n g, decodeToken t = some (e, n, g) → n ≤ now →
          ValidateJWT secret now t = .error "invalid or expired token")
      ∧ (∀ email, RequireAuth secret now authHeader = .ok email →
          ∃ n, ValidateJWT secret now (ExtractBearerToken authHeader) =
            .ok (email, n)) := by
  intro secret now authHeader
  refine ⟨?_, ?_, ?_, ?_, ?_, ?_⟩
  · intro h
    simp only [ExtractBearerToken, if_neg h]
  · intro h
    simp only [RequireAuth, h]
    rfl
  · intro t m ht hne hv
    simp only [RequireAuth, ht, if_neg hne, hv]
  · intro t e n g hd hg
    simp only [ValidateJWT, hd]
    rw [if_neg]
    intro ⟨h1, _⟩
    exact hg h1
  · intro t e n g hd hn
    simp only [ValidateJWT, hd]
    rw [if_neg]
    intro ⟨_, h2⟩
    omega
  · intro email h
    simp only [RequireAuth] at h
    by_cases he : ExtractBearerToken authHeader = ""
    · simp [he] at h
    · simp only [if_neg he] at h
      cases hv : ValidateJWT secret now (ExtractBearerToken authHeader) with
      | error e => rw [hv] at h; cases h
      | ok pair =>
          rw [hv] at h
          cases h
          exact ⟨pair.2, rfl⟩

/-- Witness for C7: a non-Bearer header, a tampered tag and an expired token
are each turned away with 401 and never dispatched. -/
theorem C7_auth_middleware_rejects_before_dispatch_witness :
    RequireAuth "sec" 1000 "Token abc" =
      .error ⟨401, [("error", "Missing or malformed token")]⟩
    ∧ RequireAuth "sec" 1000 "Bearer alice.2000.badtag" =
        .error ⟨401, [("error", "invalid or expired token")]⟩
    ∧ ValidateJWT "sec" 1000 "alice.2000.badtag" =
        .error "invalid or expired token"
    ∧ ValidateJWT "sec" 3000 ("alice.2000." ++ signModel "sec" "alice" 2000) =
        .error "invalid or expired token" := by
  refine ⟨?_, ?_, ?_, ?_⟩
  · exact (C7_auth_middleware_rejects_before_dispatch "sec" 1000
      "Token abc").2.1 (by rfl)
  · exact (C7_auth_middleware_rejects_before_dispatch "sec" 1000
      "Bearer alice.2000.badtag").2.2.1 "alice.2000.badtag"
      "invalid or expired token" (by rfl) (by decide) (by rfl)
  · exact (C7_auth_middleware_rejects_before_dispatch "sec" 1000
      "x").2.2.2.1 "alice.2000.badtag" "alice" 2000 "badtag" (by rfl) (by decide)
  · exact (C7_auth_middleware_rejects_before_dispatch "sec" 3000
      "x").2.2.2.2.1 ("alice.2000." ++ signModel "sec" "alice" 2000)
      "alice" 2000 (signModel "sec" "alice" 2000) (by rfl) (by decide)

/-- Claim C8: every mutating CRUD operation of the product and user services
(create, update, delete) runs inside a single store transaction: a success
commits exactly the repository operation, a failure hands the error back
with the store unchanged, and a failing repository operation surfaces to the
caller as the very same error value, untranslated. -/
theorem C8_mutating_crud_single_transaction :
    ∀ (ps : List ProductRow) (p : ProductRow) (pid : String)
      (us : List User) (u : User) (hash : String → Option String)
      (freshId : String) (now : Nat) (plain uid : String),
      ((productService.Create ps p).1 = .ok () →
          productRepository.Insert ps p = .ok (productService.Create ps p).2)
      ∧ (∀ e, (productService.Create ps p).1 = .error e →
          (productService.Create ps p).2 = ps)
      ∧ ((productService.Update ps p).1 = .ok () →
          productRepository.Update ps p = .ok (productService.Update ps p).2)
      ∧ (∀ e, (productService.Update ps p).1 = .error e →
          (productService.Update ps p).2 = ps)
      ∧ ((productService.Delete ps pid).1 = .ok () →
          productRepository.Delete ps pid = .ok (productService.Delete ps pid).2)
      ∧ (∀ e, (productService.Delete ps pid).1 = .error e →
          (productService.Delete ps pid).2 = ps)
      ∧ ((userService.Create hash freshId now us u plain).1 = .ok () →
          ∃ row, userRepository.Insert now us row =
            .ok (userService.Create hash freshId now us u plain).2)
      ∧ (∀ e, (userService.Create hash freshId now us u plain).1 = .error e →
          (userService.Create hash freshId now us u plain).2 = us)
      ∧ ((userService.Update now us u).1 = .ok () →
          userRepository.Update now us u = .ok (userService.Update now us u).2)
      ∧ (∀ e, (userService.Update now us u).1 = .error e →
          (userService.Update now us u).2 = us)
      ∧ ((userService.Delete us uid).1 = .ok () →
          userRepository.Delete us uid = .ok (userService.Delete us uid).2)
      ∧ (∀ e, (userService.Delete us uid).1 = .error e →
          (userService.Delete us uid).2 = us)
      ∧ (∀ e, productRepository.Insert ps p = .error e →
          (productService.Create ps p).1 = .error e)
      ∧ (∀ e, productRepository.Update ps p = .error e →
          (productService.Update ps p).1 = .error e)
      ∧ (∀ e, productRepository.Delete ps pid = .error e →
          (productService.Delete ps pid).1 = .error e)
      ∧ (∀ h e, hash plain = some h →
          userRepository.Insert now us
            { (if u.ID = "" then { u with ID := freshId } else u) with
              PasswordHash := h } = .error e →
          (userService.Create hash freshId now us u plain).1 = .error e)
      ∧ (∀ e, userRepository.Update now us u = .error e →
          (userService.Update now us u).1 = .error e)
      ∧ (∀ e, userRepository.Delete us uid = .error e →
          (userService.Delete us uid).1 = .error e) := by
  intro ps p pid us u hash freshId now plain uid
  refine ⟨withTx_ok _ _, withTx_err _ _, withTx_ok _ _, withTx_err _ _,
          withTx_ok _ _, withTx_err _ _, ?_, ?_, withTx_ok _ _, withTx_err _ _,
          withTx_ok _ _, withTx_err _ _,
          withTx_err_surfaced ps (fun rows => productRepository.Insert rows p),
          withTx_err_surfaced ps (fun rows => productRepository.Update rows p),
          withTx_err_surfaced ps (fun rows => productRepository.Delete rows pid), ?_,
          withTx_err_surfaced us (fun rows => userRepository.Update now rows u),
          withTx_err_surfaced us (fun rows => userRepository.Delete rows uid)⟩
  · intro h
    unfold userService.Create at h ⊢
    cases hh : hash plain with
    | none => rw [hh] at h; cases h
    | some hv =>
        rw [hh] at h
        exact ⟨_, withTx_ok _ _ h⟩
  · intro e h
    unfold userService.Create at h ⊢
    cases hh : hash plain with
    | none => rfl
    | some hv =>
        rw [hh] at h
        exact withTx_err _ _ e h
  · intro h e hh hrepo
    unfold userService.Create
    rw [hh]
    exact withTx_err_surfaced _ _ e hrepo

/-- Witness for C8: a fresh product insert commits its row; inserting a
duplicate id fails, leaves the store unchanged, and the caller receives the
duplicate-key repository error verbatim. -/
theorem C8_mutating_crud_single_transaction_witness :
    productRepository.Insert [] ⟨"p1", "Bag", 1, 1, 1, "s1", "LV0001"⟩ =
      .ok (productService.Create [] ⟨"p1", "Bag", 1, 1, 1, "s1", "LV0001"⟩).2
    ∧ (productService.Create [⟨"p1", "Bag", 1, 1, 1, "s1", "LV0001"⟩]
        ⟨"p1", "Other", 2, 2, 2, "s2", "LV0002"⟩).2 =
      [⟨"p1", "Bag", 1, 1, 1, "s1", "LV0001"⟩]
    ∧ (productService.Create [⟨"p1", "Bag", 1, 1, 1, "s1", "LV0001"⟩]
        ⟨"p1", "Other", 2, 2, 2, "s2", "LV0002"⟩).1 =
      .error "duplicate key value violates unique constraint products_pkey" := by
  refine ⟨?_, ?_, ?_⟩
  · exact (C8_mutating_crud_single_transaction []
      ⟨"p1", "Bag", 1, 1, 1, "s1", "LV0001"⟩ "x" [] adminSeedUser
      (fun s => some s) "f" 0 "pw" "y").1 (by rfl)
  · exact (C8_mutating_crud_single_transaction
      [⟨"p1", "Bag", 1, 1, 1, "s1", "LV0001"⟩]
      ⟨"p1", "Other", 2, 2, 2, "s2", "LV0002"⟩ "x" [] adminSeedUser
      (fun s => some s) "f" 0 "pw" "y").2.1
      "duplicate key value violates unique constraint products_pkey" (by rfl)
  · exact (C8_mutating_crud_single_transaction
      [⟨"p1", "Bag", 1, 1, 1, "s1", "LV0001"⟩]
      ⟨"p1", "Other", 2, 2, 2, "s2", "LV0002"⟩ "x" [] adminSeedUser
      (fun s => some s) "f" 0 "pw" "y").2.2.2.2.2.2.2.2.2.2.2.2.1
      "duplicate key value violates unique constraint products_pkey" (by rfl)

/-- Claim C9: a successful userService.Create writes exactly one row whose
PasswordHash is the bcrypt hash of the supplied plain password, with a fresh
UUID assigned when the supplied id was empty and the caller id kept
otherwise; the plaintext is never persisted — the whole outcome depends on
the plain password only through its hash — and a hashing failure returns
before any store access. -/
theorem C9_user_create_bcrypt_and_uuid :
    ∀ (hash : String → Option String) (freshId : String) (now : Nat)
      (store : List User) (u : User) (plain : String),
      (∀ h, hash plain = some h →
        ((userService.Create hash freshId now store u plain).1 = .ok () →
          (userService.Create hash freshId now store u plain).2 =
            store ++ [{ u with
                        ID := (if u.ID = "" then freshId else u.ID)
                        PasswordHash := h
                        CreatedAt := now
                        UpdatedAt := now }]))
      ∧ (∀ plain2, hash plain = hash plain2 →
          userService.Create hash freshId now store u plain =
            userService.Create hash freshId now store u plain2)
      ∧ (hash plain = none →
          userService.Create hash freshId now store u plain =
            (.error "bcrypt: hashing failed", store)) := by
  intro hash freshId now store u plain
  refine ⟨?_, ?_, ?_⟩
  · intro h hh hok
    have hC : userService.Create hash freshId now store u plain =
        withTx store (fun rows => userRepository.Insert now rows
          { (if u.ID = "" then { u with ID := freshId } else u) with
            PasswordHash := h }) := by
      unfold userService.Create
      rw [hh]
    rw [hC] at hok ⊢
    have hins := withTx_ok _ _ hok
    have hw := userRepositoryInsert_ok hins
    rw [hw]
    by_cases hid : u.ID = "" <;> simp [hid]
  · intro plain2 heq
    unfold userService.Create
    rw [heq]
  · intro hn
    unfold userService.Create
    rw [hn]

/-- Witness for C9: creating a user with an empty id stores the fresh UUID
and the modelled bcrypt hash of the password. -/
theorem C9_user_create_bcrypt_and_uuid_witness :
    (userService.Create (fun s => some (bcryptHashModel s)) "uuid-1" 7 []
        ⟨"", "alice", "a@b.c", "staff", "", none, "", "sys", 0, "sys", 0⟩
        "pw1").2 =
      [] ++ [⟨(if ("" : String) = "" then "uuid-1" else ""), "alice", "a@b.c",
        "staff", "", none, bcryptHashModel "pw1", "sys", 7, "sys", 7⟩] :=
  ((C9_user_create_bcrypt_and_uuid (fun s => some (bcryptHashModel s)) "uuid-1" 7
    [] ⟨"", "alice", "a@b.c", "staff", "", none, "", "sys", 0, "sys", 0⟩
    "pw1").1 (bcryptHashModel "pw1") rfl) (by rfl)

/-- Claim C10: userRepository.List executed with limit ≤ 0 — including the
zero an unparsable limit query parameter leaves behind in the handler — runs
with limit 50; a positive limit is used unchanged; and the rows come back
ordered by created_at descending. -/
theorem C10_user_list_default_limit_and_order :
    ∀ (rows : List User) (limit offset : Int),
      (limit ≤ 0 →
        userRepository.List rows limit offset = userRepository.List rows 50 offset)
      ∧ (0 < limit → userRepository.List rows limit offset =
          (((List.insertionSort createdDesc rows).drop offset.toNat).take
            limit.toNat).map (fun u => { u with PasswordHash := "" }))
      ∧ List.Pairwise createdDesc (userRepository.List rows limit offset)
      ∧ (∀ s store offsetQ, goAtoi s = none →
          ListUsers store (some s) offsetQ = ListUsers store none offsetQ) := by
  intro rows limit offset
  refine ⟨?_, ?_, ?_, ?_⟩
  · intro h
    simp only [userRepository.List, if_pos h]
    rfl
  · intro h
    have hn : ¬ (limit ≤ 0) := by omega
    simp only [userRepository.List, if_neg hn]
  · have hs : List.Pairwise createdDesc (List.insertionSort createdDesc rows) :=
      List.sorted_insertionSort createdDesc rows
    have h1 : List.Pairwise createdDesc
        ((List.insertionSort createdDesc rows).drop offset.toNat) :=
      List.Pairwise.sublist (List.drop_sublist _ _) hs
    have h2 : List.Pairwise createdDesc
        (((List.insertionSort createdDesc rows).drop offset.toNat).take
          (if limit ≤ 0 then (50 : Int) else limit).toNat) :=
      List.Pairwise.sublist (List.take_sublist _ _) h1
    simp only [userRepository.List]
    rw [List.pairwise_map]
    exact h2.imp (fun hab => hab)
  · intro s store offsetQ hs
    simp only [ListUsers, Option.getD, atoiOrZero, hs]
    rfl

/-- Witness for C10: limit -3 behaves as limit 50, limit 1 takes one row, and
an unparsable limit query behaves as the default. -/
theorem C10_user_list_default_limit_and_order_witness :
    userRepository.List [adminSeedUser] (-3) 0 = userRepository.List [adminSeedUser] 50 0
    ∧ userRepository.List [adminSeedUser] 1 0 =
        (((List.insertionSort createdDesc [adminSeedUser]).drop
          (0 : Int).toNat).take (1 : Int).toNat).map
            (fun u => { u with PasswordHash := "" })
    ∧ ListUsers [adminSeedUser] (some "abc") none = ListUsers [adminSeedUser] none none := by
  refine ⟨?_, ?_, ?_⟩
  · exact (C10_user_list_default_limit_and_order [adminSeedUser] (-3) 0).1 (by decide)
  · exact (C10_user_list_default_limit_and_order [adminSeedUser] 1 0).2.1 (by decide)
  · exact (C10_user_list_default_limit_and_order [] 0 0).2.2.2 "abc"
      [adminSeedUser] none (by rfl)

end LuxTrack
